import Mathlib

/-!
Verification of the GitLab merge-request smart-AI review pipeline.

Shallow embedding of the decision logic of the repository's scripts:
  - scripts/review_pr.py   (SmartCodeReviewer: security heuristics, review
    of a single file, tag derivation, aggregate status, file filtering,
    startup configuration check)
  - scripts/tag_mr.py      (IntelligentTagger: label lifecycle, tag
    context enhancement, startup configuration check)
  - scripts/generate_changelog.py (ChangelogGenerator.categorize_changes)

External collaborators (the regular-expression engine, the JSON parser,
the filesystem and the hosting-platform HTTP API) are modelled as explicit
function parameters (oracles); everything the scripts themselves compute
is translated directly into executable Lean definitions.
-/

namespace SmartPR

/-! ## Python string primitives

Python-faithful string helpers, written structurally over `List Char` so
that every definition evaluates in the kernel.  Python strings compare
lexicographically by code point; `x in s` is contiguous-substring test;
`str.lower()` on ASCII maps A-Z to a-z (all strings the scripts compare
are ASCII). -/

/-- Is `p` a prefix of `s` (character lists)? Models Python `s.startswith(p)`. -/
def startsWithChars : List Char → List Char → Bool
  | [], _ => true
  | _ :: _, [] => false
  | a :: as, b :: bs => a = b && startsWithChars as bs

/-- Does `s` contain `n` as a contiguous substring? Models Python `n in s`. -/
def hasSubChars (n : List Char) : List Char → Bool
  | [] => startsWithChars n []
  | c :: cs => startsWithChars n (c :: cs) || hasSubChars n cs

/-- Python `needle in s` on strings. -/
def strHasSub (needle s : String) : Bool := hasSubChars needle.data s.data

/-- Python `s.startswith(p)`. -/
def strStarts (p s : String) : Bool := startsWithChars p.data s.data

/-- Python `s.endswith(suf)`. -/
def strEnds (suf s : String) : Bool :=
  startsWithChars suf.data.reverse s.data.reverse

/-- Python `s.lower()` (ASCII). -/
def pyLower (s : String) : String := String.mk (s.data.map Char.toLower)

/-- Lexicographic less-or-equal on code points, Python `s1 <= s2`. -/
def charListLe : List Char → List Char → Bool
  | [], _ => true
  | _ :: _, [] => false
  | a :: as, b :: bs =>
    if a.toNat < b.toNat then true
    else if b.toNat < a.toNat then false
    else charListLe as bs

/-- Python string less-or-equal. -/
def pyStrLe (a b : String) : Bool := charListLe a.data b.data

/-- The ordering relation used by Python `sorted` on strings. -/
def tagLe (a b : String) : Prop := pyStrLe a b = true

instance : DecidableRel tagLe := fun a b =>
  inferInstanceAs (Decidable (pyStrLe a b = true))

/-- Python truthiness of an optional string (`None` and `""` are falsy). -/
def pyTruthy : Option String → Bool
  | none => false
  | some s => !s.data.isEmpty

theorem charListLe_total : ∀ as bs : List Char,
    charListLe as bs = true ∨ charListLe bs as = true := by
  intro as
  induction as with
  | nil => intro bs; left; cases bs <;> rfl
  | cons a as ih =>
    intro bs
    cases bs with
    | nil => right; rfl
    | cons b bs =>
      rcases Nat.lt_trichotomy a.toNat b.toNat with h | h | h
      · left; simp [charListLe, h]
      · have hab : ¬ a.toNat < b.toNat := by omega
        have hba : ¬ b.toNat < a.toNat := by omega
        rcases ih bs with h' | h'
        · left; simp [charListLe, hab, hba, h']
        · right; simp [charListLe, hab, hba, h']
      · right; simp [charListLe, h]

theorem charListLe_trans : ∀ as bs cs : List Char,
    charListLe as bs = true → charListLe bs cs = true → charListLe as cs = true := by
  intro as
  induction as with
  | nil => intro bs cs _ _; cases cs <;> rfl
  | cons a as ih =>
    intro bs cs hab hbc
    cases bs with
    | nil => simp [charListLe] at hab
    | cons b bs =>
      cases cs with
      | nil => simp [charListLe] at hbc
      | cons c cs =>
        simp only [charListLe] at hab hbc ⊢
        by_cases h1 : a.toNat < b.toNat <;>
          by_cases h2 : b.toNat < a.toNat <;>
            by_cases h3 : b.toNat < c.toNat <;>
              by_cases h4 : c.toNat < b.toNat <;>
                simp only [h1, h2, h3, h4, if_pos, if_neg, if_true, if_false,
                  ite_true, ite_false] at hab hbc ⊢ <;>
                simp_all <;>
                first
                  | omega
                  | exact Or.inl (by omega)
                  | exact Or.inr ⟨by omega, ih bs cs hab hbc⟩

instance : IsTotal String tagLe :=
  ⟨fun a b => charListLe_total a.data b.data⟩

instance : IsTrans String tagLe :=
  ⟨fun a b c hab hbc => charListLe_trans a.data b.data c.data hab hbc⟩

/-- Python `sorted` on a list of strings (ascending code-point order). -/
def py_sorted (l : List String) : List String := List.insertionSort tagLe l

/-! ## Data model

Mirrors the dictionaries the scripts build.  Optional dictionary keys are
`Option` fields defaulting to `none`; `r.get(key)` truthiness on them is
`pyTruthy` / comparison with `some true`. -/

/-- A JSON scalar as it may appear in the `line` field of an AI-reported
issue: the model may return a number or arbitrary text. -/
inductive JLine where
  | num (n : Int)
  | str (s : String)
deriving DecidableEq

/-- One issue inside the AI reply (`issues` array of the requested JSON). -/
structure ReviewIssue where
  line : JLine
  severity : String
  category : String
  description : String
  suggestion : String
deriving DecidableEq

/-- One heuristic security finding (dict built in `analyze_security_issues`). -/
structure SecurityFinding where
  file : String
  line : Nat
  category : String
  description : String
  severity : String
deriving DecidableEq

/-- The parsed AI reply (`json.loads` of the model response), fields as
requested by `create_review_prompt`. -/
structure ReviewData where
  summary : String := ""
  issues : List ReviewIssue := []
  positive_aspects : List String := []
  has_breaking_changes : Option Bool := none
  performance_impact : Option String := none
  follow_up_actions : List String := []
deriving DecidableEq

/-- The per-file result dict returned by `review_file`.  Error results carry
only `file`, `error` and possibly `raw_response`; the other keys are absent,
modelled by the defaults. -/
structure ReviewResult where
  file : String
  summary : Option String := none
  issues : List ReviewIssue := []
  positive_aspects : List String := []
  has_breaking_changes : Option Bool := none
  performance_impact : Option String := none
  follow_up_actions : List String := []
  security_issues : List SecurityFinding := []
  error : Option String := none
  raw_response : Option String := none
deriving DecidableEq

/-- The status dict written by `save_results` to ai_review_status.txt and
read back by `tag_mr.py` (missing keys read as 0 via `.get(key, 0)`). -/
structure AggregateStatus where
  total_files : Nat := 0
  total_issues : Nat := 0
  high_severity_issues : Nat := 0
  security_issues : Nat := 0
  overall_status : String := ""
deriving DecidableEq

/-! ## SecurityHeuristicScanner — `SmartCodeReviewer.analyze_security_issues`

`re.finditer` is the regex engine, an external collaborator; it is passed in
as an oracle `finditer : pattern → content → list of match start offsets`
(the code uses only `match.start()`).  Pattern strings are the literal
regexes from the source. -/

/-- Regex: hardcoded password assignment. -/
def pat_secret1 : String := "(password|pwd|pass)\\s*=\\s*[\x22\x27][^\x22\x27]+[\x22\x27]"

/-- Regex: hardcoded api key / secret / token assignment. -/
def pat_secret2 : String :=
  "(api_key|apikey|secret|token)\\s*=\\s*[\x22\x27][^\x22\x27]+[\x22\x27]"

/-- Regex: hardcoded SECRET_KEY / API_KEY assignment. -/
def pat_secret3 : String := "(SECRET_KEY|API_KEY)\\s*=\\s*[\x22\x27][^\x22\x27]+[\x22\x27]"

/-- Regex: raw %s interpolation inside execute(...). -/
def pat_sql1 : String := "execute\\s*\\(\\s*[\x22\x27].*%s.*[\x22\x27]"

/-- Regex: string concatenation inside cursor.execute(...). -/
def pat_sql2 : String := "cursor\\.execute\\s*\\(\\s*[\x22\x27].*\\+.*[\x22\x27]"

/-- Regex: innerHTML assignment built by concatenation. -/
def pat_xss1 : String := "innerHTML\\s*=\\s*.*\\+"

/-- Regex: document.write call. -/
def pat_xss2 : String := "document\\.write\\s*\\("

/-- The `security_patterns` table, in source (= dict insertion) order. -/
def security_patterns : List (String × List String) :=
  [("hardcoded_secrets", [pat_secret1, pat_secret2, pat_secret3]),
   ("sql_injection", [pat_sql1, pat_sql2]),
   ("xss_vulnerability", [pat_xss1, pat_xss2])]

/-- Python `content[:off].count(chr(10))`: newline characters before a
match offset (offsets count code points, as in Python). -/
def newlinesBefore (content : String) (off : Nat) : Nat :=
  ((content.data.take off).filter (fun c => c = '\n')).length

/-- Python `category.replace(chr(95), chr(32))`: underscores to spaces. -/
def underToSpace (s : String) : String :=
  String.mk (s.data.map (fun c => if c = '_' then ' ' else c))

/-- `SmartCodeReviewer.analyze_security_issues`: one finding per regex match,
line = newlines before the match offset + 1, severity high exactly for the
hardcoded-secrets category. -/
def analyze_security_issues (finditer : String → String → List Nat)
    (file_path content : String) : List SecurityFinding :=
  security_patterns.flatMap (fun cp =>
    cp.2.flatMap (fun pat =>
      (finditer pat content).map (fun off =>
        { file := file_path
          line := newlinesBefore content off + 1
          category := cp.1
          description := "Potential " ++ underToSpace cp.1 ++ " detected"
          severity := if cp.1 = "hardcoded_secrets" then "high" else "medium" })))

/-! ## TagLabelSynthesizer — `SmartCodeReviewer.determine_tags`

`save_results` calls `determine_tags(self.review_results)`, so the
`file_changes` parameter holds ReviewResult dicts and `change[file-key]` is
the result's `file` field.  The Python function accumulates into a `set`
and returns `sorted(list(tags))`; the value of that expression is the
ascending ordering of the distinct collected tags, modelled as
`py_sorted` of the deduplicated in-order collection list. -/

/-- Tags contributed by one changed file (language, then functional tags),
in source order. -/
def changeTags (change : ReviewResult) : List String :=
  let f := change.file
  (if strEnds ".py" f || strEnds ".pyi" f then ["python"]
   else if strEnds ".js" f || strEnds ".jsx" f || strEnds ".ts" f || strEnds ".tsx" f then
     ["javascript"]
   else if strEnds ".java" f then ["java"]
   else if strEnds ".html" f || strEnds ".css" f then ["frontend"]
   else if strEnds ".yml" f || strEnds ".yaml" f then ["config"]
   else if strEnds ".md" f then ["documentation"]
   else [])
  ++ (if strHasSub "test" (pyLower f) then ["testing"] else [])
  ++ (if strHasSub "api" (pyLower f) then ["api"] else [])
  ++ (if strHasSub "security" (pyLower f) || strHasSub "auth" (pyLower f)
        || strHasSub "login" (pyLower f) then ["security"] else [])
  ++ (if strHasSub "db" (pyLower f) || strHasSub "model" (pyLower f)
        || strHasSub "migration" (pyLower f) then ["database"] else [])

/-- `SmartCodeReviewer.determine_tags`.  Note the source tests
`r.get(performance-impact-key)` for Python truthiness: any non-empty string
value, including "neutral", passes the test. -/
def determine_tags (file_changes : List ReviewResult)
    (review_results : List ReviewResult)
    (security_issues : List SecurityFinding) : List String :=
  py_sorted
    ((file_changes.flatMap changeTags
      ++ (if review_results.any (fun r => r.has_breaking_changes = some true) then
            ["breaking-change"] else [])
      ++ (if review_results.any (fun r => pyTruthy r.performance_impact) then
            ["performance"] else [])
      ++ (if !security_issues.isEmpty then ["security-review-needed"] else [])).dedup)

/-! ## ReviewAggregator — `SmartCodeReviewer.save_results` status record -/

/-- The status dict computed by `save_results`.  `overall_status` follows
the source condition `if self.security_issues or any(...)`. -/
def save_results_status (review_results : List ReviewResult)
    (security_issues : List SecurityFinding) : AggregateStatus :=
  { total_files := review_results.length
    total_issues := (review_results.map (fun r => r.issues.length)).sum
    high_severity_issues :=
      (review_results.map
        (fun r => (r.issues.filter (fun i => i.severity = "high")).length)).sum
    security_issues := security_issues.length
    overall_status :=
      if !security_issues.isEmpty
          || review_results.any (fun r => r.has_breaking_changes = some true) then
        "needs_attention"
      else "approved" }

/-! ## ReviewResponseValidator — `SmartCodeReviewer.review_file`

`json.loads` is the external JSON parser, passed in as
`parse : raw reply → Option ReviewData` (`none` = JSONDecodeError).  The
file content and diff are what `get_file_content` / `get_file_diff`
returned (`none` on failure; `if not content` / `if not diff` also treat an
empty string as missing). -/

/-- `SmartCodeReviewer.review_file` for one file. -/
def review_file (parse : String → Option ReviewData)
    (finditer : String → String → List Nat) (file_path : String)
    (content : Option String) (diff : Option String) (ai_reply : String) :
    ReviewResult :=
  if pyTruthy content = false then
    { file := file_path, error := some "Could not read file" }
  else if pyTruthy diff = false then
    { file := file_path, error := some "No changes detected" }
  else
    let sec := analyze_security_issues finditer file_path (content.getD "")
    match parse ai_reply with
    | some rd =>
      { file := file_path
        summary := some rd.summary
        issues := rd.issues
        positive_aspects := rd.positive_aspects
        has_breaking_changes := rd.has_breaking_changes
        performance_impact := rd.performance_impact
        follow_up_actions := rd.follow_up_actions
        security_issues := sec }
    | none =>
      { file := file_path
        error := some "Failed to parse AI response"
        raw_response := some ai_reply }

/-- Per-file input to the review loop in `SmartCodeReviewer.run`. -/
structure FileInput where
  file : String
  content : Option String
  diff : Option String
  ai_reply : String

/-- The review loop of `SmartCodeReviewer.run`: one ReviewResult appended
per changed file, in order. -/
def run_reviews (parse : String → Option ReviewData)
    (finditer : String → String → List Nat) (inputs : List FileInput) :
    List ReviewResult :=
  inputs.map (fun i => review_file parse finditer i.file i.content i.diff i.ai_reply)

/-! ## ChangelogGenerator.categorize_changes -/

/-- The merge-commit record fields `categorize_changes` reads (missing dict
keys default to empty, as in the source's `.get(..., default)` calls). -/
structure MergeInfo where
  files_changed : List String := []
  labels : List String := []
  commit_message : String := ""
  title : String := ""

/-- The nine categories of `generate_changelog_entry`. -/
def changelog_categories : List String :=
  ["breaking", "security", "feature", "fix", "performance", "docs",
   "test", "config", "other"]

/-- `ChangelogGenerator.categorize_changes`: labels, then commit-message /
title keywords, then file-path heuristics, first match wins. -/
def categorize_changes (mi : MergeInfo) : String :=
  let msg := pyLower mi.commit_message
  let ttl := pyLower mi.title
  if mi.labels.any (fun l => l = "breaking-change" || l = "major") then "breaking"
  else if mi.labels.any (fun l => l = "feature" || l = "enhancement") then "feature"
  else if mi.labels.any (fun l => l = "bugfix" || l = "fix" || l = "bug") then "fix"
  else if mi.labels.any (fun l => l = "security") then "security"
  else if mi.labels.any (fun l => l = "performance") then "performance"
  else if mi.labels.any (fun l => l = "documentation" || l = "docs") then "docs"
  else if ["break", "breaking", "major"].any
      (fun w => strHasSub w msg || strHasSub w ttl) then "breaking"
  else if ["feat", "feature", "add", "new"].any
      (fun w => strHasSub w msg || strHasSub w ttl) then "feature"
  else if ["fix", "bug", "patch", "repair"].any
      (fun w => strHasSub w msg || strHasSub w ttl) then "fix"
  else if ["security", "vulnerability", "cve"].any
      (fun w => strHasSub w msg || strHasSub w ttl) then "security"
  else if ["perf", "performance", "optimize"].any
      (fun w => strHasSub w msg || strHasSub w ttl) then "performance"
  else if ["doc", "readme", "documentation"].any
      (fun w => strHasSub w msg || strHasSub w ttl) then "docs"
  else if mi.files_changed.any (fun f => strHasSub "test" (pyLower f)) then "test"
  else if mi.files_changed.any (fun f => strEnds ".md" f) then "docs"
  else if mi.files_changed.any
      (fun f => strStarts "." f || strHasSub "config" (pyLower f)) then "config"
  else "other"

/-- The label-derived category of the claim: the result of the first six
(label-only) rules of `categorize_changes`, `none` when no label matches. -/
def label_derived_category (labels : List String) : Option String :=
  if labels.any (fun l => l = "breaking-change" || l = "major") then some "breaking"
  else if labels.any (fun l => l = "feature" || l = "enhancement") then some "feature"
  else if labels.any (fun l => l = "bugfix" || l = "fix" || l = "bug") then some "fix"
  else if labels.any (fun l => l = "security") then some "security"
  else if labels.any (fun l => l = "performance") then some "performance"
  else if labels.any (fun l => l = "documentation" || l = "docs") then some "docs"
  else none

/-! ## Startup configuration checks

`SmartCodeReviewer.__init__` and `IntelligentTagger.__init__`.  Environment
variables are `Option String` (`os.environ.get` returns None when unset);
`if not v` / `if not all([...])` use Python truthiness. -/

/-- The environment variables the two constructors read. -/
structure Env where
  llm_api_key : Option String := none
  gitlab_pat : Option String := none
  ci_project_id : Option String := none
  ci_merge_request_iid : Option String := none

/-- Outcome of a constructor: proceed to pipeline work, or `sys.exit(code)`. -/
inductive StartupResult where
  | started
  | exited (code : Nat)
deriving DecidableEq

/-- `SmartCodeReviewer.__init__`: exits 1 only when LLM_API_KEY is unset or
empty; the GitLab token, project id and MR iid are read but not checked. -/
def smart_reviewer_startup (env : Env) : StartupResult :=
  if pyTruthy env.llm_api_key then .started else .exited 1

/-- `IntelligentTagger.__init__`: exits 1 when any of GITLAB_PAT,
CI_PROJECT_ID, CI_MERGE_REQUEST_IID is unset or empty. -/
def tag_mr_startup (env : Env) : StartupResult :=
  if pyTruthy env.gitlab_pat && pyTruthy env.ci_project_id
      && pyTruthy env.ci_merge_request_iid then
    .started
  else .exited 1

/-! ## Label lifecycle — `IntelligentTagger.create_label_if_needed`

The hosting platform is modelled as the project's label list plus a
creation-call counter; whether a creation POST returns 201 is the oracle
`createOk` (network failures and conflicts both yield a non-201 outcome,
which the source maps to False). -/

/-- The hosting-platform state seen by the tagger. -/
structure TagState where
  labels : List String
  creations : Nat := 0
deriving DecidableEq

/-- `IntelligentTagger.create_label_if_needed`: look up existing labels,
create only when absent, report success/failure as Bool. -/
def create_label_if_needed (createOk : String → Bool) (st : TagState)
    (name _color : String) : Bool × TagState :=
  if name ∈ st.labels then (true, st)
  else if createOk name then
    (true, { labels := name :: st.labels, creations := st.creations + 1 })
  else (false, { st with creations := st.creations + 1 })

/-- The label-creation loop of `IntelligentTagger.run`: tags whose
creation call reported success are collected; a failed tag is skipped and
the loop continues. -/
def create_labels_loop (createOk : String → Bool) (colorOf : String → String)
    (st : TagState) : List String → List String × TagState
  | [] => ([], st)
  | t :: ts =>
    let r := create_label_if_needed createOk st t (colorOf t)
    let rest := create_labels_loop createOk colorOf r.2 ts
    (if r.1 then t :: rest.1 else rest.1, rest.2)

/-! ## Tag enhancement — `IntelligentTagger.enhance_tags_with_context`

The source appends context tags to a copy of the AI tag list and returns
`list(set(enhanced_tags))`.  A Python `set` of strings iterates in an
implementation-defined (hash-randomized) order, so the returned list is
modelled relationally: any duplicate-free list with exactly the elements
of the appended list is a possible return value. -/

/-- The list `enhanced_tags` as built by the source before the final
`list(set(...))`. -/
def enhance_tags_pre (ai_tags : List String) (rs : AggregateStatus) :
    List String :=
  ai_tags
  ++ (if rs.security_issues > 0 then ["security-review-needed"] else [])
  ++ (if rs.high_severity_issues > 0 then ["high-priority"]
      else if rs.total_issues = 0 then ["ready-for-review"] else [])
  ++ ["ai-reviewed"]
  ++ (if rs.total_issues > 10 then ["needs-attention"]
      else if rs.total_issues = 0 then ["clean-code"] else [])

/-- `l` is a possible value of Python `list(set(xs))`: duplicate-free with
exactly the elements of `xs`. -/
def IsPySetList (xs l : List String) : Prop :=
  l.Nodup ∧ (∀ a ∈ l, a ∈ xs) ∧ (∀ a ∈ xs, a ∈ l)

/-- `l` is a possible return value of
`IntelligentTagger.enhance_tags_with_context(ai_tags, rs)`. -/
def IsEnhanceOutput (ai_tags : List String) (rs : AggregateStatus)
    (l : List String) : Prop :=
  IsPySetList (enhance_tags_pre ai_tags rs) l

/-! ## ChangeSetReader filter — `SmartCodeReviewer.should_review_file`

`re.match` is the oracle `reMatch : translated pattern → path → Bool`; the
filesystem is the oracle `fsSize : path → Option Nat` (`none` = the path
does not exist, `some n` = it exists with size n). -/

/-- Python `pattern.replace(chr(42), chr(46) ++ chr(42))`: each `*` becomes `.*`. -/
def starToDotStar : List Char → List Char
  | [] => []
  | c :: cs =>
    if c = '*' then '.' :: '*' :: starToDotStar cs else c :: starToDotStar cs

/-- The ignore-pattern translation applied before `re.match`. -/
def globTranslate (p : String) : String := String.mk (starToDotStar p.data)

/-- Last path component (the part after the final slash), as
`pathlib.PurePath(...).name` for the plain relative paths git emits. -/
def lastComponentAux : List Char → List Char → List Char
  | acc, [] => acc
  | acc, c :: cs =>
    if c = '/' then lastComponentAux [] cs else lastComponentAux (acc ++ [c]) cs

/-- Index of the last dot of a name, if any. -/
def lastDotIdx : List Char → Nat → Option Nat → Option Nat
  | [], _, acc => acc
  | c :: cs, i, acc => lastDotIdx cs (i + 1) (if c = '.' then some i else acc)

/-- `pathlib.PurePath(path).suffix`: the final extension of the last
component, empty for dotfiles and names without an interior dot. -/
def pathSuffix (path : String) : String :=
  let name := lastComponentAux [] path.data
  match lastDotIdx name 0 none with
  | some i => if 0 < i ∧ i < name.length - 1 then String.mk (name.drop i) else ""
  | none => ""

/-- The code-extension allowlist of `should_review_file`. -/
def code_extensions : List String :=
  [".py", ".js", ".jsx", ".ts", ".tsx", ".java", ".go", ".rs",
   ".cpp", ".c", ".h", ".cs", ".php", ".rb", ".swift", ".kt"]

/-- The config fields `should_review_file` reads. -/
structure ReviewConfig where
  ignore_patterns : List String
  max_file_size : Nat

/-- `SmartCodeReviewer.should_review_file`: ignore patterns, then a size
check only for paths that exist, then the extension allowlist. -/
def should_review_file (reMatch : String → String → Bool)
    (fsSize : String → Option Nat) (cfg : ReviewConfig) (path : String) : Bool :=
  if cfg.ignore_patterns.any (fun pat => reMatch (globTranslate pat) path) then
    false
  else
    match fsSize path with
    | some sz =>
      if sz > cfg.max_file_size then false
      else decide (pyLower (pathSuffix path) ∈ code_extensions)
    | none => decide (pyLower (pathSuffix path) ∈ code_extensions)

/-! ## Claims -/

/-- Claim C1: the aggregate status computed by `save_results` has
`overall_status = "needs_attention"` iff the accumulated security-finding
count is positive or some ReviewResult has `has_breaking_changes` true;
otherwise it is `"approved"`. -/
theorem c1_overall_status_iff (rr : List ReviewResult)
    (si : List SecurityFinding) :
    ((save_results_status rr si).overall_status = "needs_attention" ↔
      0 < si.length ∨ ∃ r ∈ rr, r.has_breaking_changes = some true) ∧
    ((save_results_status rr si).overall_status = "approved" ↔
      ¬(0 < si.length ∨ ∃ r ∈ rr, r.has_breaking_changes = some true)) := by
  have hne : ("needs_attention" : String) ≠ "approved" := by decide
  have hkey :
      (!si.isEmpty || rr.any (fun r => r.has_breaking_changes = some true)) = true ↔
        (0 < si.length ∨ ∃ r ∈ rr, r.has_breaking_changes = some true) := by
    simp [List.any_eq_true, List.isEmpty_iff, List.length_pos]
  by_cases h :
      (!si.isEmpty || rr.any (fun r => r.has_breaking_changes = some true)) = true
  · have hs : (save_results_status rr si).overall_status = "needs_attention" := by
      simp [save_results_status, h]
    rw [hs]
    exact ⟨⟨fun _ => hkey.1 h, fun _ => rfl⟩,
      ⟨fun habs => absurd habs hne, fun hnp => absurd (hkey.1 h) hnp⟩⟩
  · have hs : (save_results_status rr si).overall_status = "approved" := by
      simp only [save_results_status]
      rw [if_neg (by simpa using h)]
    rw [hs]
    exact ⟨⟨fun habs => absurd habs.symm hne, fun hp => absurd (hkey.2 hp) h⟩,
      ⟨fun _ => fun hp => absurd (hkey.2 hp) h, fun _ => rfl⟩⟩

/-- Each branch of an if-then-else is in a list when both alternatives are. -/
theorem mem_ite_of_mem {α : Type} {c : Prop} [Decidable c] {a b : α}
    {L : List α} (ha : a ∈ L) (hb : b ∈ L) : (if c then a else b) ∈ L := by
  split <;> assumption

/-- An if-then-else collapses to the then-branch under its condition. -/
theorem ite_eq_then_of_pos {α : Type} {c : Prop} [Decidable c] {a b : α}
    (h : c) : (if c then a else b) = a := if_pos h

/-- An if-then-else collapses to the else-branch under the negated condition. -/
theorem ite_eq_else_of_neg {α : Type} {c : Prop} [Decidable c] {a b : α}
    (h : ¬c) : (if c then a else b) = b := if_neg h

/-- Claim C2: `categorize_changes` is total into the nine fixed categories,
and whenever a label rule matches, the label-derived category is the
result, overriding keyword and file-path rules. -/
theorem c2_categorize_total_label_priority (mi : MergeInfo) :
    categorize_changes mi ∈ changelog_categories ∧
    (∀ c, label_derived_category mi.labels = some c → categorize_changes mi = c) := by
  constructor
  · unfold categorize_changes
    dsimp only
    repeat (first | decide | refine mem_ite_of_mem (by decide) ?_)
  · intro c hc
    unfold label_derived_category at hc
    unfold categorize_changes
    dsimp only
    by_cases h1 : (mi.labels.any fun l => l = "breaking-change" || l = "major") = true
    · rw [if_pos h1] at hc ⊢; exact Option.some.inj hc
    rw [if_neg h1] at hc ⊢
    by_cases h2 : (mi.labels.any fun l => l = "feature" || l = "enhancement") = true
    · rw [if_pos h2] at hc ⊢; exact Option.some.inj hc
    rw [if_neg h2] at hc ⊢
    by_cases h3 : (mi.labels.any fun l => l = "bugfix" || l = "fix" || l = "bug") = true
    · rw [if_pos h3] at hc ⊢; exact Option.some.inj hc
    rw [if_neg h3] at hc ⊢
    by_cases h4 : (mi.labels.any fun l => l = "security") = true
    · rw [if_pos h4] at hc ⊢; exact Option.some.inj hc
    rw [if_neg h4] at hc ⊢
    by_cases h5 : (mi.labels.any fun l => l = "performance") = true
    · rw [if_pos h5] at hc ⊢; exact Option.some.inj hc
    rw [if_neg h5] at hc ⊢
    by_cases h6 : (mi.labels.any fun l => l = "documentation" || l = "docs") = true
    · rw [if_pos h6] at hc ⊢; exact Option.some.inj hc
    rw [if_neg h6] at hc
    exact absurd hc (by simp)

/-- Concrete merge-commit record for the C2 witness: a `security` label
together with a commit message that matches the `feat` keyword rule. -/
def c2_mi : MergeInfo :=
  { labels := ["security"], commit_message := "feat: add rate limiting" }

/-- Witness for C2 at a concrete merge-commit record: the `security` label
wins although the commit message contains the `feat` keyword. -/
theorem c2_witness :
    label_derived_category c2_mi.labels = some "security" ∧
    categorize_changes c2_mi = "security" :=
  ⟨by decide,
   (c2_categorize_total_label_priority c2_mi).2 "security" (by decide)⟩

/-- Claim C3: when the AI reply of a file does not parse as JSON,
`review_file` returns a ReviewResult whose error is
"Failed to parse AI response" with the raw reply preserved, and the review
loop still produces one ReviewResult per file before and after it. -/
theorem c3_parse_failure_is_isolated (parse : String → Option ReviewData)
    (finditer : String → String → List Nat) (pre post : List FileInput)
    (i : FileInput) (hc : pyTruthy i.content = true)
    (hd : pyTruthy i.diff = true) (hp : parse i.ai_reply = none) :
    (review_file parse finditer i.file i.content i.diff i.ai_reply).error =
      some "Failed to parse AI response" ∧
    (review_file parse finditer i.file i.content i.diff i.ai_reply).raw_response =
      some i.ai_reply ∧
    run_reviews parse finditer (pre ++ i :: post) =
      run_reviews parse finditer pre
        ++ review_file parse finditer i.file i.content i.diff i.ai_reply
          :: run_reviews parse finditer post := by
  refine ⟨?_, ?_, ?_⟩
  · simp [review_file, hc, hd, hp]
  · simp [review_file, hc, hd, hp]
  · simp [run_reviews]

/-- JSON parser stub that always fails, for the C3 witness. -/
def c3_parse : String → Option ReviewData := fun _ => none

/-- Regex oracle reporting no matches, for the C3 witness. -/
def c3_finditer : String → String → List Nat := fun _ _ => []

/-- The file whose AI reply is not JSON, for the C3 witness. -/
def c3_bad : FileInput :=
  { file := "app.py", content := some "x = 1", diff := some "@@ -0,0 +1 @@",
    ai_reply := "Sure! Here is my review." }

/-- A subsequent file in the changed-file list, for the C3 witness. -/
def c3_next : FileInput :=
  { file := "b.py", content := some "y = 2", diff := some "@@ -1 +1 @@",
    ai_reply := "also not json" }

/-- Witness for C3: a concrete two-file run in which the first reply fails
to parse, the error result preserves the raw text, and the second file
still gets its ReviewResult. -/
theorem c3_witness :
    (review_file c3_parse c3_finditer c3_bad.file c3_bad.content c3_bad.diff
        c3_bad.ai_reply).error = some "Failed to parse AI response" ∧
    (review_file c3_parse c3_finditer c3_bad.file c3_bad.content c3_bad.diff
        c3_bad.ai_reply).raw_response = some c3_bad.ai_reply ∧
    run_reviews c3_parse c3_finditer ([] ++ c3_bad :: [c3_next]) =
      run_reviews c3_parse c3_finditer []
        ++ review_file c3_parse c3_finditer c3_bad.file c3_bad.content
            c3_bad.diff c3_bad.ai_reply
          :: run_reviews c3_parse c3_finditer [c3_next] :=
  c3_parse_failure_is_isolated c3_parse c3_finditer [] [c3_next] c3_bad
    (by decide) (by decide) rfl

/-- Claim C4 (amended): issues of a validated reply are carried into the
ReviewResult verbatim — none is dropped and neither severity nor line is
rewritten (in particular no normalization to low severity occurs). -/
theorem c4_issues_preserved_verbatim (parse : String → Option ReviewData)
    (finditer : String → String → List Nat) (file_path : String)
    (content diff : Option String) (ai_reply : String) (rd : ReviewData)
    (hc : pyTruthy content = true) (hd : pyTruthy diff = true)
    (hp : parse ai_reply = some rd) :
    (review_file parse finditer file_path content diff ai_reply).issues =
      rd.issues ∧
    (review_file parse finditer file_path content diff ai_reply).error = none := by
  constructor <;> simp [review_file, hc, hd, hp]

/-- An issue with a non-numeric line and a severity outside
high/medium/low, for the C4 counterexample. -/
def c4_bad_issue : ReviewIssue :=
  { line := .str "not-a-number", severity := "critical", category := "style",
    description := "descr", suggestion := "sugg" }

/-- Parsed AI reply containing only the invalid issue. -/
def c4_data : ReviewData := { issues := [c4_bad_issue] }

/-- JSON parser stub returning the reply with the invalid issue. -/
def c4_parse : String → Option ReviewData := fun _ => some c4_data

/-- Regex oracle reporting no matches, for C4. -/
def c4_finditer : String → String → List Nat := fun _ _ => []

/-- Counterexample to C4 as stated: an issue with non-numeric line and
severity outside high/medium/low reaches the ReviewResult with its
severity still "critical" — it is not normalized to "low". -/
theorem c4_counterexample :
    (review_file c4_parse c4_finditer "app.py" (some "x = 1") (some "@@")
        "reply").issues = [c4_bad_issue] ∧
    c4_bad_issue.severity = "critical" ∧
    c4_bad_issue.severity ∉ ["high", "medium", "low"] ∧
    c4_bad_issue.severity ≠ "low" := by
  refine ⟨?_, rfl, by decide, by decide⟩
  simp [review_file, c4_parse, c4_data]
  rfl

/-- Witness for C4 (amended) at the concrete invalid-issue reply. -/
theorem c4_witness :
    (review_file c4_parse c4_finditer "app.py" (some "x = 1") (some "@@")
        "reply").issues = c4_data.issues ∧
    (review_file c4_parse c4_finditer "app.py" (some "x = 1") (some "@@")
        "reply").error = none :=
  c4_issues_preserved_verbatim c4_parse c4_finditer "app.py" (some "x = 1")
    (some "@@") "reply" c4_data (by decide) (by decide) rfl

/-- Claim C5: every match of the hardcoded-password pattern yields a
finding of the hardcoded-secrets category with severity high whose line is
the newline count before the match offset plus one, and every finding's
severity is high exactly for that category and medium for all others. -/
theorem c5_scanner_severity_and_line (finditer : String → String → List Nat)
    (file_path content : String) :
    (∀ off ∈ finditer pat_secret1 content,
      ∃ f ∈ analyze_security_issues finditer file_path content,
        f.category = "hardcoded_secrets" ∧ f.severity = "high" ∧
        f.line = newlinesBefore content off + 1) ∧
    (∀ f ∈ analyze_security_issues finditer file_path content,
      f.severity = if f.category = "hardcoded_secrets" then "high" else "medium") := by
  constructor
  · intro off hoff
    refine ⟨{ file := file_path
              line := newlinesBefore content off + 1
              category := "hardcoded_secrets"
              description := "Potential " ++ underToSpace "hardcoded_secrets"
                ++ " detected"
              severity := "high" }, ?_, rfl, rfl, rfl⟩
    unfold analyze_security_issues
    rw [List.mem_flatMap]
    refine ⟨("hardcoded_secrets", [pat_secret1, pat_secret2, pat_secret3]),
      by simp [security_patterns], ?_⟩
    rw [List.mem_flatMap]
    refine ⟨pat_secret1, by simp, ?_⟩
    rw [List.mem_map]
    exact ⟨off, hoff, by simp⟩
  · intro f hf
    unfold analyze_security_issues at hf
    simp only [List.mem_flatMap, List.mem_map] at hf
    obtain ⟨cp, _, pat, _, off, _, rfl⟩ := hf
    rfl

/-- Regex oracle for the C5 witness: one hardcoded-password match at
offset 0 of the scanned content. -/
def c5_finditer : String → String → List Nat :=
  fun pat c =>
    if pat = pat_secret1 && c = "password = \x22x\x22" then [0] else []

/-- Witness for C5: scanning content consisting of the line
password = "x" produces a hardcoded-secrets finding of severity high at
line 1. -/
theorem c5_witness :
    ∃ f ∈ analyze_security_issues c5_finditer "app.py" "password = \x22x\x22",
      f.category = "hardcoded_secrets" ∧ f.severity = "high" ∧
      f.line = newlinesBefore "password = \x22x\x22" 0 + 1 :=
  (c5_scanner_severity_and_line c5_finditer "app.py" "password = \x22x\x22").1
    0 (by decide)

/-- Claim C6: `create_label_if_needed` is idempotent — an existing label
triggers no creation call and reports success; two calls with the same
name and color perform at most one successful creation and both report
success; a failed creation reports failure without changing the host's
labels, and the creation loop continues past a failed tag. -/
theorem c6_create_label_idempotent (createOk : String → Bool) (st : TagState)
    (name color : String) :
    (name ∈ st.labels → create_label_if_needed createOk st name color = (true, st)) ∧
    (createOk name = true →
      (create_label_if_needed createOk st name color).1 = true ∧
      (create_label_if_needed createOk
        (create_label_if_needed createOk st name color).2 name color).1 = true ∧
      (create_label_if_needed createOk
        (create_label_if_needed createOk st name color).2 name color).2.creations
        ≤ st.creations + 1) ∧
    (name ∉ st.labels → createOk name = false →
      (create_label_if_needed createOk st name color).1 = false ∧
      (create_label_if_needed createOk st name color).2.labels = st.labels) ∧
    (∀ t2, createOk name = false → name ∉ st.labels → t2 ∈ st.labels →
      (create_labels_loop createOk (fun _ => color) st [name, t2]).1 = [t2]) := by
  refine ⟨?_, ?_, ?_, ?_⟩
  · intro hm
    simp [create_label_if_needed, hm]
  · intro ho
    by_cases hm : name ∈ st.labels
    · simp [create_label_if_needed, hm]
    · simp [create_label_if_needed, hm, ho]
  · intro hm ho
    simp [create_label_if_needed, hm, ho]
  · intro t2 ho hm ht2
    by_cases hne : t2 = name
    · exact absurd (hne ▸ ht2) hm
    · simp [create_labels_loop, create_label_if_needed, hm, ho, ht2, hne]

/-- Creation oracle that always succeeds, for the C6 witness. -/
def c6_ok : String → Bool := fun _ => true

/-- Creation oracle that always fails, for the C6 witness. -/
def c6_bad : String → Bool := fun _ => false

/-- A host that already has the label python, for the C6 witness. -/
def c6_st : TagState := { labels := ["python"], creations := 0 }

/-- Witness for C6 at concrete states: an existing label is reused with no
creation, a new label is created once across two calls with both calls
succeeding, a failed creation reports false and leaves the labels
unchanged, and the loop still applies the tag after a failed one. -/
theorem c6_witness :
    create_label_if_needed c6_ok c6_st "python" "#3776ab" = (true, c6_st) ∧
    ((create_label_if_needed c6_ok c6_st "security" "#dc3545").1 = true ∧
      (create_label_if_needed c6_ok
        (create_label_if_needed c6_ok c6_st "security" "#dc3545").2
        "security" "#dc3545").1 = true ∧
      (create_label_if_needed c6_ok
        (create_label_if_needed c6_ok c6_st "security" "#dc3545").2
        "security" "#dc3545").2.creations ≤ c6_st.creations + 1) ∧
    ((create_label_if_needed c6_bad c6_st "security" "#dc3545").1 = false ∧
      (create_label_if_needed c6_bad c6_st "security" "#dc3545").2.labels =
        c6_st.labels) ∧
    (create_labels_loop c6_bad (fun _ => "#dc3545") c6_st
        ["security", "python"]).1 = ["python"] :=
  ⟨(c6_create_label_idempotent c6_ok c6_st "python" "#3776ab").1 (by decide),
   (c6_create_label_idempotent c6_ok c6_st "security" "#dc3545").2.1 rfl,
   (c6_create_label_idempotent c6_bad c6_st "security" "#dc3545").2.2.1
     (by decide) rfl,
   (c6_create_label_idempotent c6_bad c6_st "security" "#dc3545").2.2.2
     "python" rfl (by decide) (by decide)⟩

/-- A successful review whose performance impact is the string neutral. -/
def c7_result : ReviewResult := { file := "a.py", performance_impact := some "neutral" }

/-- Claim C7 is false of the code: `determine_tags` tests
`r.get(performance-impact)` for Python truthiness, and the non-empty string
"neutral" is truthy, so a run whose only result reports neutral impact
still derives the performance tag.  This theorem evaluates the code at
that failing input. -/
theorem c7_neutral_impact_adds_performance_tag :
    determine_tags [c7_result] [c7_result] [] = ["performance", "python"] ∧
    (∀ r ∈ [c7_result], r.performance_impact = some "neutral") := by
  refine ⟨by decide, ?_⟩
  intro r hr
  simp only [List.mem_singleton] at hr
  rw [hr]
  rfl

/-- Claim C8 (amended): `determine_tags` output is sorted and
duplicate-free; `enhance_tags_with_context` output is duplicate-free (set
semantics) but is not sorted — its order is the implementation-defined
iteration order of a Python set. -/
theorem c8_tag_lists_dedup_sorting (fc rr : List ReviewResult)
    (si : List SecurityFinding) (ai_tags : List String) (rs : AggregateStatus) :
    List.Sorted tagLe (determine_tags fc rr si) ∧
    (determine_tags fc rr si).Nodup ∧
    (∀ l, IsEnhanceOutput ai_tags rs l → l.Nodup) := by
  refine ⟨?_, ?_, fun l h => h.1⟩
  · unfold determine_tags py_sorted
    exact List.sorted_insertionSort tagLe _
  · unfold determine_tags py_sorted
    exact ((List.perm_insertionSort tagLe _).nodup_iff).2 (List.nodup_dedup _)

/-- A loaded review status with one security issue and three issues in
total, for the C8 counterexample. -/
def c8_status : AggregateStatus := { security_issues := 1, total_issues := 3 }

/-- An unsorted but valid value of
`enhance_tags_with_context(["python"], c8_status)`. -/
def c8_unsorted : List String := ["security-review-needed", "python", "ai-reviewed"]

/-- Counterexample to C8 as stated: the enhanced tag list is only
constrained to set semantics, and this valid output value is not sorted,
so the sortedness part of the claim fails for
`enhance_tags_with_context`. -/
theorem c8_counterexample :
    IsEnhanceOutput ["python"] c8_status c8_unsorted ∧
    ¬ List.Sorted tagLe c8_unsorted := by
  constructor
  · exact ⟨by decide, by decide, by decide⟩
  · intro h
    exact absurd ((List.sorted_cons.1 h).1 "python" (by decide)) (by decide)

/-- A review result over a path hitting several tag rules, for the C8
witness. -/
def c8_fc : ReviewResult := { file := "tests/api/db_models.py" }

/-- The only possible enhance output (up to order) for empty AI tags and an
all-zero status, used concretely in the C8 witness. -/
def c8_clean : List String := ["ready-for-review", "ai-reviewed", "clean-code"]

/-- Witness for C8 (amended) at concrete inputs: a derived tag list that is
sorted and duplicate-free, and a concrete enhance output that is
duplicate-free. -/
theorem c8_witness :
    List.Sorted tagLe (determine_tags [c8_fc] [c8_fc] []) ∧
    (determine_tags [c8_fc] [c8_fc] []).Nodup ∧
    c8_clean.Nodup :=
  ⟨(c8_tag_lists_dedup_sorting [c8_fc] [c8_fc] [] [] {}).1,
   (c8_tag_lists_dedup_sorting [c8_fc] [c8_fc] [] [] {}).2.1,
   (c8_tag_lists_dedup_sorting [c8_fc] [c8_fc] [] [] {}).2.2 c8_clean
     ⟨by decide, by decide, by decide⟩⟩

/-- Environment with every configuration value except the GitLab token,
for the C9 counterexample. -/
def c9_env : Env :=
  { llm_api_key := some "key", gitlab_pat := none,
    ci_project_id := some "42", ci_merge_request_iid := some "7" }

/-- Counterexample to C9 as stated: with the GitLab access token missing
(a required configuration value named by the claim) the reviewer's
constructor does not exit — it proceeds to pipeline work. -/
theorem c9_counterexample :
    c9_env.gitlab_pat = none ∧ smart_reviewer_startup c9_env = .started := by
  exact ⟨rfl, rfl⟩

/-- Claim C9 (amended): the reviewer exits non-zero at startup exactly when
the LLM credential is missing or empty, and the tagger exits non-zero at
startup exactly when the GitLab token, the project identifier or the MR
identifier is missing or empty; a missing GitLab token alone does not
abort the reviewer. -/
theorem c9_startup_exit_conditions (env : Env) :
    (smart_reviewer_startup env = .exited 1 ↔ pyTruthy env.llm_api_key = false) ∧
    (smart_reviewer_startup env = .started ↔ pyTruthy env.llm_api_key = true) ∧
    (tag_mr_startup env = .exited 1 ↔
      (pyTruthy env.gitlab_pat && pyTruthy env.ci_project_id
        && pyTruthy env.ci_merge_request_iid) = false) ∧
    (tag_mr_startup env = .started ↔
      (pyTruthy env.gitlab_pat && pyTruthy env.ci_project_id
        && pyTruthy env.ci_merge_request_iid) = true) := by
  unfold smart_reviewer_startup tag_mr_startup
  by_cases h1 : pyTruthy env.llm_api_key = true <;>
    by_cases h2 : (pyTruthy env.gitlab_pat && pyTruthy env.ci_project_id
        && pyTruthy env.ci_merge_request_iid) = true <;>
      simp [h1, h2]

/-- Claim C10: for a path that does not exist at filter time no size check
applies — the decision is exactly the ignore-pattern filter plus the
extension allowlist, and it is independent of the configured
max_file_size. -/
theorem c10_missing_file_skips_size_check (reMatch : String → String → Bool)
    (fsSize : String → Option Nat) (cfg : ReviewConfig) (path : String)
    (h : fsSize path = none) :
    should_review_file reMatch fsSize cfg path =
      (!(cfg.ignore_patterns.any (fun pat => reMatch (globTranslate pat) path))
        && decide (pyLower (pathSuffix path) ∈ code_extensions)) ∧
    (∀ m, should_review_file reMatch fsSize
        { cfg with max_file_size := m } path =
      should_review_file reMatch fsSize cfg path) := by
  constructor
  · unfold should_review_file
    rw [h]
    by_cases hig :
        (cfg.ignore_patterns.any (fun pat => reMatch (globTranslate pat) path)) = true <;>
      simp [hig]
  · intro m
    unfold should_review_file
    rw [h]

/-- Filesystem oracle under which no path exists, for the C10 witness. -/
def c10_fs : String → Option Nat := fun _ => none

/-- Regex oracle under which no ignore pattern matches, for the C10 witness. -/
def c10_rm : String → String → Bool := fun _ _ => false

/-- The default configuration's filter-relevant fields, for the C10 witness. -/
def c10_cfg : ReviewConfig :=
  { ignore_patterns := [".git/*", "node_modules/*", "*.min.js", "*.bundle.js"],
    max_file_size := 50000 }

/-- Witness for C10 at a concrete nonexistent path: the decision equals the
ignore-and-extension test and does not change when max_file_size drops
to 0. -/
theorem c10_witness :
    should_review_file c10_rm c10_fs c10_cfg "app.py" =
      (!(c10_cfg.ignore_patterns.any
          (fun pat => c10_rm (globTranslate pat) "app.py"))
        && decide (pyLower (pathSuffix "app.py") ∈ code_extensions)) ∧
    should_review_file c10_rm c10_fs { c10_cfg with max_file_size := 0 }
        "app.py" =
      should_review_file c10_rm c10_fs c10_cfg "app.py" :=
  ⟨(c10_missing_file_skips_size_check c10_rm c10_fs c10_cfg "app.py" rfl).1,
   (c10_missing_file_skips_size_check c10_rm c10_fs c10_cfg "app.py" rfl).2 0⟩

end SmartPR
